import Mathlib

/-!
Shallow embedding of the task-management backend: the tool layer
(`src/mcp/tools.py`), the data model (`src/models/task.py`,
`src/models/chat.py`) and the chat dispatch endpoint
(`src/api/v1/endpoints/agent.py`).

Modelling conventions:
* Python `datetime` values are `DT` records at second precision;
  microseconds are elided (no verified statement depends on them).
* Database tables are Lean lists in insertion order; `select … where`
  is `List.filter`, `order_by` is a stable insertion sort, and a
  committed mutation of a fetched row is an in-place replacement.
* UUID values are opaque strings; `uuid.uuid4()` freshness is supplied
  by the caller (`newId`), and conversation ids come from a counter in
  `ChatState`.
* A Python function that can `raise` is modelled as `Except PyExn _`.
* Python truthiness of an optional string (`if x:`) is `optTruthy`.
-/

namespace App

/-- A naive `datetime.datetime` value at second precision. -/
structure DT where
  year : Nat
  month : Nat
  day : Nat
  hour : Nat
  minute : Nat
  second : Nat
deriving DecidableEq, Repr

/-- Mixed-radix key realising chronological order of valid datetimes
(month ≤ 12, day ≤ 31, hour < 24, minute < 60, second < 60);
Python compares `datetime` values field-lexicographically, which this
key realises on valid values. -/
def DT.key (d : DT) : Nat :=
  ((((d.year * 13 + d.month) * 32 + d.day) * 24 + d.hour) * 60 + d.minute) * 60 + d.second

/-- Chronological order on datetimes. -/
def DT.le (a b : DT) : Prop := a.key ≤ b.key

instance : DecidableRel DT.le := fun a b => Nat.decLe a.key b.key

/-- Zero-padded two-digit rendering, as `%m`, `%d`, `%H`, `%M`, `%S`. -/
def pad2 (n : Nat) : String :=
  if n < 10 then "0" ++ toString n else toString n

/-- Zero-padded four-digit rendering, as `%Y`. -/
def pad4 (n : Nat) : String :=
  if n < 10 then "000" ++ toString n
  else if n < 100 then "00" ++ toString n
  else if n < 1000 then "0" ++ toString n
  else toString n

/-- `d.strftime("%Y-%m-%d %H:%M:%S")` — the second-precision rendering
used for `created_at` in the duplicate list of `delete_task`. -/
def strftimeSec (d : DT) : String :=
  pad4 d.year ++ "-" ++ pad2 d.month ++ "-" ++ pad2 d.day ++ " " ++
    pad2 d.hour ++ ":" ++ pad2 d.minute ++ ":" ++ pad2 d.second

/-- `d.isoformat()` for a microsecond-free datetime:
`YYYY-MM-DDTHH:MM:SS`. -/
def isoformat (d : DT) : String :=
  pad4 d.year ++ "-" ++ pad2 d.month ++ "-" ++ pad2 d.day ++ "T" ++
    pad2 d.hour ++ ":" ++ pad2 d.minute ++ ":" ++ pad2 d.second

/-- `str(d.date())`: `YYYY-MM-DD`. -/
def dateStr (d : DT) : String :=
  pad4 d.year ++ "-" ++ pad2 d.month ++ "-" ++ pad2 d.day

/-- Split a character list at every occurrence of `c`
(`"a-b".split("-")` style; structural recursion). -/
def splitOnChar (c : Char) : List Char → List (List Char)
  | [] => [[]]
  | x :: xs =>
    if x = c then [] :: splitOnChar c xs
    else
      match splitOnChar c xs with
      | [] => [[x]]
      | g :: gs => (x :: g) :: gs

def digitsToNatAux : List Char → Nat → Option Nat
  | [], acc => some acc
  | c :: cs, acc =>
    if c.isDigit then digitsToNatAux cs (acc * 10 + (c.toNat - 48)) else none

/-- Read a non-empty all-digit character list as a `Nat`. -/
def digitsToNat (cs : List Char) : Option Nat :=
  if cs = [] then none else digitsToNatAux cs 0

def isLeapYear (y : Nat) : Bool :=
  y % 4 = 0 && (y % 100 ≠ 0 || y % 400 = 0)

def daysInMonth (y m : Nat) : Nat :=
  if m = 2 then (if isLeapYear y then 29 else 28)
  else if m = 4 || m = 6 || m = 9 || m = 11 then 30
  else 31

/-- `datetime.strptime(s, "%Y-%m-%d")`: three dash-separated numeric
fields forming a valid calendar date, time components zero; any other
shape fails (raises `ValueError` in Python, `none` here). -/
def parseDate (s : String) : Option DT :=
  match splitOnChar '-' s.data with
  | [ys, ms, ds] =>
    match digitsToNat ys, digitsToNat ms, digitsToNat ds with
    | some y, some m, some d =>
      if ys.length ≤ 4 && ms.length ≤ 2 && ds.length ≤ 2 &&
         1 ≤ y && y ≤ 9999 && 1 ≤ m && m ≤ 12 && 1 ≤ d && d ≤ daysInMonth y m then
        some ⟨y, m, d, 0, 0, 0⟩
      else none
    | _, _, _ => none
  | _ => none

/-- Python `s.upper()` (ASCII fragment, which covers the priority
values `low`/`medium`/`high`). -/
def strUpper (s : String) : String := ⟨s.data.map Char.toUpper⟩

/-- Python `s[:n]`. -/
def strTake (s : String) (n : Nat) : String := ⟨s.data.take n⟩

/-- Python `len(s)`. -/
def strLen (s : String) : Nat := s.data.length

/-- Python `sep.join(l)`. -/
def joinSep (sep : String) : List String → String
  | [] => ""
  | [x] => x
  | x :: y :: xs => x ++ sep ++ joinSep sep (y :: xs)

/-- Truthiness of a Python `Optional[str]`: `some s` when the value is
present and non-empty, `none` when it is `None` or `""`. -/
def optTruthy (o : Option String) : Option String :=
  match o with
  | some s => if s = "" then none else some s
  | none => none

/-- A Python exception escaping one of the tool functions. -/
inductive PyExn where
  | valueError (msg : String)
deriving DecidableEq, Repr

/-- A row of the `tasks` table (`src/models/task.py`).  The tool layer
writes `status` and `priority` as plain strings (the declared enum
values are `pending`/`completed`/`archived` and `low`/`medium`/`high`,
but SQLModel table models do not validate on assignment), so both are
`String` here. -/
structure Task where
  id : String
  user_id : String
  title : String
  description : Option String
  status : String
  priority : String
  due_date : Option DT
  tags : Option String
  created_at : DT
  updated_at : DT
deriving DecidableEq, Repr

/-- Ascending `created_at` order (the `order_by(Task.created_at)` of
`delete_task`). -/
def createdLe (a b : Task) : Prop := a.created_at.key ≤ b.created_at.key

instance : DecidableRel createdLe := fun a b => Nat.decLe _ _
instance : IsTotal Task createdLe := ⟨fun a b => Nat.le_total _ _⟩
instance : IsTrans Task createdLe := ⟨fun _ _ _ => Nat.le_trans⟩

/-- Descending `created_at` order (the `order_by(desc(Task.created_at))`
of `list_tasks`). -/
def createdGe (a b : Task) : Prop := b.created_at.key ≤ a.created_at.key

instance : DecidableRel createdGe := fun a b => Nat.decLe _ _
instance : IsTotal Task createdGe := ⟨fun a b => Nat.le_total _ _⟩
instance : IsTrans Task createdGe := ⟨fun _ _ _ h h2 => Nat.le_trans h2 h⟩

def sortByCreatedAsc (l : List Task) : List Task := List.insertionSort createdLe l

def sortByCreatedDesc (l : List Task) : List Task := List.insertionSort createdGe l

example : parseDate "2025-03-10" = some ⟨2025, 3, 10, 0, 0, 0⟩ := by decide
example : parseDate "2025-3-10" = some ⟨2025, 3, 10, 0, 0, 0⟩ := by decide
example : parseDate "not-a-date" = none := by decide
example : parseDate "2025-02-30" = none := by decide
example : isoformat ⟨2025, 3, 10, 0, 0, 0⟩ = "2025-03-10T00:00:00" := by decide
example : strftimeSec ⟨2025, 3, 10, 7, 5, 9⟩ = "2025-03-10 07:05:09" := by decide
example : strUpper "medium" = "MEDIUM" := by decide

/-- Result of `add_task`: `{"status", "message", "task": {"id", "title"}}`. -/
structure AddResult where
  status : String
  message : String
  task_id : String
  task_title : String
deriving DecidableEq, Repr

/-- One entry of the `tasks` list returned by `list_tasks`. -/
structure TaskSummary where
  id : String
  title : String
  priority : String
  status : String
  due_date : Option String
  created_at : Option String
deriving DecidableEq, Repr

structure ListResult where
  status : String
  tasks : List TaskSummary
deriving DecidableEq, Repr

/-- Result of `delete_task`; `requires_clarification` is only present
(true) in the duplicate-title answer, absence modelled as `false`. -/
structure DelResult where
  status : String
  message : String
  requires_clarification : Bool := false
deriving DecidableEq, Repr

/-- Result of `update_task_by_title`; `task_title` models the
`"task": {"title": …}` payload of the success case. -/
structure UpdResult where
  status : String
  message : String
  task_title : Option String := none
deriving DecidableEq, Repr

structure Analytics where
  tasks_total : Nat
  tasks_completed : Nat
  tasks_pending : Nat
  productivity_score : Nat
deriving DecidableEq, Repr

structure AnalyticsResult where
  status : String
  analytics : Analytics
deriving DecidableEq, Repr

structure BulkResult where
  status : String
  message : String
deriving DecidableEq, Repr

/-- `add_task` (`src/mcp/tools.py` lines 14–36).  `newId` stands for the
fresh `uuid4` primary key and `now` for `datetime.utcnow()` at row
construction (both `created_at` and `updated_at` defaults).  An empty
`user_id` raises `ValueError` (line 17); a truthy but malformed
`due_date` is dropped by the `except: pass` (lines 20–22). -/
def add_task (store : List Task) (newId : String) (now : DT)
    (user_id : String) (title : String) (description : Option String)
    (priority : String) (due_date : Option String) (tags : Option String) :
    Except PyExn (List Task × AddResult) :=
  if user_id = "" then .error (.valueError "user_id is required")
  else
    let parsed_date : Option DT :=
      match optTruthy due_date with
      | some s => parseDate s
      | none => none
    let task : Task :=
      { id := newId, user_id := user_id, title := title, description := description,
        priority := priority, due_date := parsed_date, tags := tags,
        status := "pending", created_at := now, updated_at := now }
    .ok (store ++ [task],
      { status := "success",
        message := "Task \x27" ++ title ++ "\x27 added.",
        task_id := newId, task_title := title })

/-- One task summary of `list_tasks` (lines 51–58).  `t.created_at` is
non-nullable and a `datetime` is always truthy, so the Python
`if t.created_at else None` guard always serializes. -/
def summarize (t : Task) : TaskSummary :=
  { id := t.id, title := t.title, priority := t.priority, status := t.status,
    due_date := t.due_date.map isoformat,
    created_at := some (isoformat t.created_at) }

/-- `list_tasks` (lines 38–60): filter by owner, optionally by status
(`if status and status != "all"`), order newest-created first. -/
def list_tasks (store : List Task) (user_id : String) (status : Option String) :
    Except PyExn ListResult :=
  if user_id = "" then .error (.valueError "user_id is required")
  else
    let q := store.filter (fun t => t.user_id == user_id)
    let q :=
      match optTruthy status with
      | some s => if s ≠ "all" then q.filter (fun t => t.status == s) else q
      | none => q
    .ok { status := "success", tasks := (sortByCreatedDesc q).map summarize }

/-- `uuid.UUID(s)` restricted to the canonical 8-4-4-4-12 hyphenated
hex form (the Python parser also accepts braces and urn prefixes, which
nothing here produces); yields the lowercase canonical rendering. -/
def parseUUID (s : String) : Option String :=
  let cs := s.data
  let hexAt : Nat → Bool := fun i =>
    let v := (cs.getD i ' ').toNat
    (48 ≤ v && v ≤ 57) || (97 ≤ v && v ≤ 102) || (65 ≤ v && v ≤ 70)
  if cs.length = 36 &&
     (List.range 36).all (fun i =>
        if i = 8 || i = 13 || i = 18 || i = 23 then cs.getD i ' ' = '-'
        else hexAt i) then
    some ⟨cs.map Char.toLower⟩
  else none

/-- `session.delete` of the row with primary key `tid`. -/
def removeById (store : List Task) (tid : String) : List Task :=
  store.eraseP (fun t => t.id == tid)

/-- The id branch of `delete_task` (lines 73–84): parse the UUID, fetch
by primary key, reject a row of another owner as not-found, else
delete. -/
def delete_by_id (store : List Task) (user_id tidStr : String) :
    List Task × DelResult :=
  match parseUUID tidStr with
  | none => (store, { status := "error", message := "Invalid ID format." })
  | some tid =>
    match store.find? (fun t => t.id == tid) with
    | none =>
      (store, { status := "error", message := "Task ID " ++ tidStr ++ " not found." })
    | some task =>
      if task.user_id ≠ user_id then
        (store, { status := "error", message := "Task ID " ++ tidStr ++ " not found." })
      else
        (removeById store tid,
         { status := "success", message := "Task \x27" ++ task.title ++ "\x27 deleted." })

/-- The `" | Due: …"` suffix of a duplicate-list entry (line 109). -/
def dueSuffix (o : Option DT) : String :=
  match o with
  | some d => " | Due: " ++ dateStr d
  | none => ""

/-- One line of the numbered duplicate list (line 112):
`"{i}. [{priority.upper()}] Created: {created_at:%Y-%m-%d %H:%M:%S}{due} (ID: {id})"`.
`t.created_at` is non-nullable, so the `else "Unknown"` branch is dead. -/
def dupEntry (i : Nat) (t : Task) : String :=
  toString i ++ ". [" ++ strUpper t.priority ++ "] Created: " ++
    strftimeSec t.created_at ++ dueSuffix t.due_date ++ " (ID: " ++ t.id ++ ")"

/-- `enumerate(tasks, k)` rendered through `dupEntry`. -/
def duplicatesInfo (k : Nat) : List Task → List String
  | [] => []
  | t :: ts => dupEntry k t :: duplicatesInfo (k + 1) ts

/-- The clarification message of the duplicate branch (line 119). -/
def clarificationMessage (title : String) (tasks : List Task) : String :=
  "I found multiple tasks named \x27" ++ title ++ "\x27. Which one?\n" ++
    joinSep "\n" (duplicatesInfo 1 tasks) ++
    "\n\nYou can say \x27Delete number 1\x27 or \x27Delete the high priority one\x27."

/-- The title branch of `delete_task` (lines 87–121): matching tasks
sorted by ascending creation time; none → not found, one → delete it,
several → clarification request that deletes nothing. -/
def delete_by_title (store : List Task) (user_id title : String) :
    List Task × DelResult :=
  let tasks :=
    sortByCreatedAsc (store.filter (fun t => t.user_id == user_id && t.title == title))
  match tasks with
  | [] => (store, { status := "error", message := "Task \x27" ++ title ++ "\x27 not found." })
  | [t] =>
    (removeById store t.id,
     { status := "success", message := "Task \x27" ++ title ++ "\x27 deleted." })
  | _ =>
    (store,
     { status := "error",
       message := clarificationMessage title tasks,
       requires_clarification := true })

/-- `delete_task` (lines 63–121).  The Python body checks the
both-falsy case first, then `if task_id:`, then `if task_title:`; the
implicit `return None` after both `if`s is unreachable because of the
first check, so this three-way match is total and order-equivalent. -/
def delete_task (store : List Task) (user_id : String)
    (task_title task_id : Option String) : Except PyExn (List Task × DelResult) :=
  if user_id = "" then .error (.valueError "user_id is required")
  else
    match optTruthy task_id, optTruthy task_title with
    | none, none =>
      .ok (store,
        { status := "error", message := "Please provide either a task title or task ID." })
    | some tid, _ => .ok (delete_by_id store user_id tid)
    | none, some t => .ok (delete_by_title store user_id t)

/-- The patch application of `update_task_by_title` (lines 137–146):
each field is written only when truthy (`if new_title: …`), a truthy
but malformed `due_date` is dropped by the `except: pass`, and
`updated_at` is always refreshed on this path.  The Python `if`s
assign pairwise-distinct fields, so the assignment sequence is one
simultaneous record update. -/
def applyPatch (new_title description priority status due_date tags : Option String)
    (now : DT) (t : Task) : Task :=
  { t with
    title :=
      match optTruthy new_title with
      | some s => s
      | none => t.title,
    description :=
      match optTruthy description with
      | some s => some s
      | none => t.description,
    priority :=
      match optTruthy priority with
      | some s => s
      | none => t.priority,
    status :=
      match optTruthy status with
      | some s => s
      | none => t.status,
    tags :=
      match optTruthy tags with
      | some s => some s
      | none => t.tags,
    due_date :=
      match optTruthy due_date with
      | some s =>
        match parseDate s with
        | some d => some d
        | none => t.due_date
      | none => t.due_date,
    updated_at := now }

/-- Replace the first list element satisfying `p` (the committed
in-place mutation of the fetched row `tasks[0]`). -/
def replaceFirst (p : Task → Bool) (new : Task) : List Task → List Task
  | [] => []
  | t :: ts => if p t then new :: ts else t :: replaceFirst p new ts

/-- The `where` clause of `update_task_by_title` (line 130). -/
def matchesTitle (user_id current_title : String) (t : Task) : Bool :=
  t.user_id == user_id && t.title == current_title

/-- `update_task_by_title` (lines 123–149): reject missing fields,
look up all owner tasks with the current title (no ordering clause,
so table insertion order), error on zero or several matches — the
several-match error names the count `len(tasks)` — else patch the
unique match. -/
def update_task_by_title (store : List Task) (user_id current_title : String)
    (new_title description priority status due_date tags : Option String)
    (now : DT) : List Task × UpdResult :=
  if user_id = "" ∨ current_title = "" then
    (store, { status := "error", message := "Missing fields" })
  else
    match store.filter (matchesTitle user_id current_title) with
    | [] => (store, { status := "error", message := "Task not found." })
    | task :: rest =>
      if rest.length ≠ 0 then
        (store,
         { status := "error",
           message := "Found " ++ toString (rest.length + 1) ++ " tasks named \x27" ++
             current_title ++ "\x27. Please rename them via ID first or delete the duplicates." })
      else
        let updated := applyPatch new_title description priority status due_date tags now task
        (replaceFirst (matchesTitle user_id current_title) updated store,
         { status := "success",
           message := "Task \x27" ++ current_title ++ "\x27 updated.",
           task_title := some updated.title })

/-- Fuel-driven floor of log₂ (structural recursion so the kernel can
evaluate it); `natLog2 n` is exact for every `n` since the recursion
depth `⌊log₂ n⌋ + 1` never exceeds the fuel `n`. -/
def log2fuel : Nat → Nat → Nat
  | 0, _ => 0
  | f + 1, n => if n ≤ 1 then 0 else log2fuel f (n / 2) + 1

def natLog2 (n : Nat) : Nat := log2fuel n n

/-- A non-negative IEEE binary64 value `m * 2 ^ e`. -/
structure F64 where
  m : Nat
  e : Int
deriving DecidableEq, Repr

/-- The correctly rounded binary64 value of the exact ratio `a / b`
(`b > 0`), round-to-nearest ties-to-even, with the exponent clamped at
the subnormal floor `-1074`.  This is exactly what CPython computes
for `int / int` true division — the program divides the two exact row
counts, so no separate conversion step is modelled.  Float overflow
(magnitudes at or above `2 ^ 1024`) is not modelled; the percentage of
`completed ≤ total` never reaches it. -/
def roundToDouble (a b : Nat) : F64 :=
  if a = 0 then ⟨0, 0⟩
  else
    let d : Int := (natLog2 a : Int) - (natLog2 b : Int)
    let geD : Bool :=
      if 0 ≤ d then decide (b * 2 ^ d.toNat ≤ a) else decide (b ≤ a * 2 ^ (-d).toNat)
    let E : Int := if geD then d else d - 1
    let p : Int := max (E - 52) (-1074)
    let N : Nat := if 0 ≤ p then a else a * 2 ^ (-p).toNat
    let D : Nat := if 0 ≤ p then b * 2 ^ p.toNat else b
    let q := N / D
    let r := N % D
    let m :=
      if 2 * r < D then q
      else if D < 2 * r then q + 1
      else if q % 2 = 0 then q else q + 1
    ⟨m, p⟩

/-- The correctly rounded binary64 product `x * 100` (the literal 100
converts to a double exactly; the multiplication rounds once). -/
def mul100 (x : F64) : F64 :=
  if 0 ≤ x.e then roundToDouble (x.m * 100 * 2 ^ x.e.toNat) 1
  else roundToDouble (x.m * 100) (2 ^ (-x.e).toNat)

/-- Python `int()` truncation of a non-negative double. -/
def truncF64 (x : F64) : Nat :=
  if 0 ≤ x.e then x.m * 2 ^ x.e.toNat else x.m / 2 ^ (-x.e).toNat

/-- `int(completed / total * 100)` over IEEE doubles (`total > 0`):
correctly rounded exact-ratio division, correctly rounded product with
100, truncation toward zero. -/
def floatPercentTrunc (completed total : Nat) : Nat :=
  truncF64 (mul100 (roundToDouble completed total))

/-- `get_analytics` (lines 153–161).  Python computes
`int((completed / total * 100) if total > 0 else 0)`; the float
pipeline is embedded faithfully by `floatPercentTrunc` (binary64
division of the exact counts, rounded product with 100, truncation),
and the guard makes the zero-task score 0 with no division. -/
def get_analytics (store : List Task) (user_id : String) : AnalyticsResult :=
  let tasks := store.filter (fun t => t.user_id == user_id)
  let total := tasks.length
  let completed := (tasks.filter (fun t => t.status == "completed")).length
  let pending := (tasks.filter (fun t => t.status == "pending")).length
  let score := if 0 < total then floatPercentTrunc completed total else 0
  { status := "success",
    analytics := { tasks_total := total, tasks_completed := completed,
                   tasks_pending := pending, productivity_score := score } }

example : floatPercentTrunc 2 3 = 66 := by decide
example : floatPercentTrunc 29 100 = 28 := by decide
example : floatPercentTrunc 1 2 = 50 := by decide
example : floatPercentTrunc 3 3 = 100 := by decide
example : floatPercentTrunc 0 7 = 0 := by decide
example : floatPercentTrunc 7 50 = 14 := by decide

/-- `complete_all_tasks` (lines 172–179): set `status = "completed"`
on every fetched row of the owner and commit.  `updated_at` is not
assigned, and the column has no `onupdate` default
(`src/models/task.py` line 36), so it keeps its stored value; rows of
other owners are untouched. -/
def complete_all_tasks (store : List Task) (user_id : String) :
    List Task × BulkResult :=
  (store.map (fun t => if t.user_id == user_id then { t with status := "completed" } else t),
   { status := "success", message := "All tasks marked completed." })

/-- A row of the `conversations` table (`src/models/chat.py`).
Conversation ids are drawn from the `nextConvId` counter of
`ChatState`, standing for fresh `uuid4` values. -/
structure Conversation where
  id : Nat
  user_id : String
  title : String
  created_at : DT
  updated_at : DT
deriving DecidableEq, Repr

/-- A row of the `chat_messages` table.  The `uuid4` primary key is
elided (nothing reads it); `timestamp` comes from the model default
factory `datetime.utcnow` — the endpoint passes a `created_at`
keyword the model does not declare, which lands as a stray attribute,
so the effective timestamp is the construction-time clock. -/
structure ChatMessage where
  conversation_id : Nat
  role : String
  content : String
  timestamp : DT
  tool_call_id : Option String := none
deriving DecidableEq, Repr

/-- Chat persistence state: both tables plus the fresh-id counter. -/
structure ChatState where
  convs : List Conversation
  msgs : List ChatMessage
  nextConvId : Nat
deriving DecidableEq, Repr

/-- The body of the `try` block of `chat_endpoint` as seen from the
persistence layer (`src/api/v1/endpoints/agent.py` lines 256–316).
Tool executions mutate only the task store and the in-memory
transcript, never the chat tables, so the outcome of the two upstream
completions is all the dispatch loop needs:
* `noTools content`: first completion succeeded with zero tool calls
  (`content` is `ai_msg.content`, possibly `None`);
* `withTools finalContent`: the tool path ran and the second
  completion succeeded (`finalContent` possibly `None`);
* `failure e`: any exception in the `try` block (`str(e)`), caught at
  line 312. -/
inductive UpstreamOutcome where
  | noTools (content : Option String)
  | withTools (finalContent : Option String)
  | failure (e : String)
deriving DecidableEq, Repr

/-- Python `x or default` for an `Optional[str]` (`None` and `""` both
fall back). -/
def pyOr (o : Option String) (d : String) : String :=
  match o with
  | some s => if s = "" then d else s
  | none => d

/-- The value of `final_resp` after the `try`/`except` (lines 256–316):
a fallback reply is synthesized on failure, `"Okay."` replaces a falsy
no-tool reply. -/
def finalRespOf (outcome : UpstreamOutcome) : Option String :=
  match outcome with
  | .noTools c => some (pyOr c "Okay.")
  | .withTools c => c
  | .failure e => some ("I encountered an error processing your request: " ++ e)

/-- The value of `tool_calls_executed` after the `try`/`except`: set
at line 270 on the tool path, reset to `False` by the handler. -/
def toolCallsExecutedOf (outcome : UpstreamOutcome) : Bool :=
  match outcome with
  | .withTools _ => true
  | _ => false

structure ChatResponse where
  response : String
  conversation_id : Nat
  user_id : String
  tool_calls_executed : Bool
  original_message : String
deriving DecidableEq, Repr

inductive HTTPError where
  | badRequest (detail : String)
deriving DecidableEq, Repr

/-- Step B of `chat_endpoint` (lines 203–223): reuse the supplied
conversation id when a conversation with that id exists — ownership is
not consulted — otherwise allocate a new conversation titled with the
(possibly truncated) message.  `convReq` is the request field composed
with `uuid.UUID`: `none` when absent, `some none` when the string does
not parse, `some (some k)` when it parses to `k`. -/
def resolveConv (st : ChatState) (uid : String) (message : String)
    (convReq : Option (Option Nat)) (now : DT) : ChatState × Nat :=
  let found : Option Nat :=
    match convReq with
    | none => none
    | some none => none
    | some (some k) => if st.convs.any (fun c => c.id = k) then some k else none
  match found with
  | some k => (st, k)
  | none =>
    let title_text :=
      if 30 < strLen message then strTake message 30 ++ "..." else message
    let title := if title_text = "" then "New Chat" else title_text
    ({ st with
        convs := st.convs ++
          [{ id := st.nextConvId, user_id := uid, title := title,
             created_at := now, updated_at := now }],
        nextConvId := st.nextConvId + 1 },
     st.nextConvId)

/-- `chat_endpoint` (lines 188–335).  `userParse` is
`uuid.UUID(request.user_id)` (`none` when it raises); `now` stands for
the clock of the turn; `outcome` abstracts the two upstream completions and
the tool loop (see `UpstreamOutcome`).  The user message is persisted
before the `try` block runs (step C, lines 225–233), the assistant
message after it (step G, lines 318–326), so both land regardless of
the outcome. -/
def chat_endpoint (st : ChatState) (message : String) (user_id : String)
    (userParse : Option String) (convReq : Option (Option Nat)) (now : DT)
    (outcome : UpstreamOutcome) : Except HTTPError (ChatState × ChatResponse) :=
  if user_id = "" then .error (.badRequest "user_id is required")
  else
    match userParse with
    | none => .error (.badRequest "Invalid user_id format")
    | some uid =>
      let r := resolveConv st uid message convReq now
      let st1 := r.1
      let cid := r.2
      let userMsg : ChatMessage :=
        { conversation_id := cid, role := "user", content := message, timestamp := now }
      let st2 := { st1 with msgs := st1.msgs ++ [userMsg] }
      let final_resp := finalRespOf outcome
      let aiMsg : ChatMessage :=
        { conversation_id := cid, role := "assistant",
          content := pyOr final_resp "Processed.", timestamp := now }
      let st3 := { st2 with msgs := st2.msgs ++ [aiMsg] }
      .ok (st3,
        { response := pyOr final_resp "Done.",
          conversation_id := cid,
          user_id := user_id,
          tool_calls_executed := toolCallsExecutedOf outcome,
          original_message := message })

/-! Sample data used by witnesses and counterexamples. -/

def d1 : DT := ⟨2025, 3, 1, 9, 0, 0⟩
def d2 : DT := ⟨2025, 3, 2, 10, 30, 5⟩
def d3 : DT := ⟨2025, 3, 3, 11, 0, 0⟩

/-- A task with no description, due date or tags, created and last
updated at `c`. -/
def mkTask (id uid title prio st : String) (c : DT) : Task :=
  { id := id, user_id := uid, title := title, description := none,
    status := st, priority := prio, due_date := none, tags := none,
    created_at := c, updated_at := c }

/-- Three tasks of owner `u6`, two of them completed. -/
def analyticsStore : List Task :=
  [mkTask "a1" "u6" "A" "medium" "completed" d1,
   mkTask "a2" "u6" "B" "medium" "completed" d2,
   mkTask "a3" "u6" "C" "medium" "pending" d3]

/-- Modelled from the spec: "`productivity_score = round(completed/total*100)`
or `0` when total is 0" — `round` being the Python nearest-integer,
half-to-even rounding, here of the exact ratio. -/
def specRound100 (completed total : Nat) : Nat :=
  if total = 0 then 0
  else
    let n := completed * 100
    let q := n / total
    let r := n % total
    if 2 * r < total then q
    else if total < 2 * r then q + 1
    else if q % 2 = 0 then q else q + 1

/-- Two same-titled tasks of owner `u2`, second created later, the
first one due and low-priority. -/
def dupStore : List Task :=
  [{ mkTask "11111111-1111-1111-1111-111111111111" "u2" "Buy milk" "low" "pending" d1 with
      due_date := some ⟨2025, 3, 10, 0, 0, 0⟩ },
   mkTask "22222222-2222-2222-2222-222222222222" "u2" "Buy milk" "high" "pending" d2]

/-- One task of owner `u9` with every optional field populated. -/
def richTask : Task :=
  { id := "33333333-3333-3333-3333-333333333333", user_id := "u9",
    title := "Report", description := some "Quarterly report",
    status := "pending", priority := "high",
    due_date := some ⟨2025, 4, 1, 0, 0, 0⟩, tags := some "work",
    created_at := d1, updated_at := d1 }

/-- The row `add_task` builds for a title-only task with due-date
string `"2025-03-10"`. -/
def dueTask (newId uid title : String) (now : DT) : Task :=
  { id := newId, user_id := uid, title := title, description := none,
    priority := "medium", due_date := some ⟨2025, 3, 10, 0, 0, 0⟩, tags := none,
    status := "pending", created_at := now, updated_at := now }

/-- The store produced by adding a `"2025-03-10"`-due task to an empty
store. -/
def c8Store : List Task :=
  match add_task [] "tid-0001" d1 "u8" "Groceries" none "medium" (some "2025-03-10") none with
  | .ok p => p.1
  | .error _ => []

/-- A chat state holding one conversation owned by `userB`. -/
def foreignConvState : ChatState :=
  { convs := [{ id := 5, user_id := "userB", title := "B chat",
                created_at := d1, updated_at := d1 }],
    msgs := [], nextConvId := 6 }

/-- An empty chat state. -/
def emptyChatState : ChatState := { convs := [], msgs := [], nextConvId := 0 }

end App

namespace App

/-! Helper lemmas. -/

lemma fallback_ne_empty (e : String) :
    "I encountered an error processing your request: " ++ e ≠ "" := by
  intro h
  have h2 : ("I encountered an error processing your request: " ++ e).data.length = 0 := by
    rw [h]; rfl
  have h3 : ("I encountered an error processing your request: " ++ e).data =
      ("I encountered an error processing your request: ").data ++ e.data := rfl
  rw [h3, List.length_append] at h2
  have h4 : 0 < ("I encountered an error processing your request: ").data.length := by decide
  omega

lemma resolveConv_msgs (st : ChatState) (uid message : String)
    (convReq : Option (Option Nat)) (now : DT) :
    (resolveConv st uid message convReq now).1.msgs = st.msgs := by
  unfold resolveConv
  rcases convReq with _ | _ | k
  · rfl
  · rfl
  · dsimp only
    by_cases h : st.convs.any (fun c => c.id = k)
    · simp [h]
    · simp [h]

lemma duplicatesInfo_getElem? (k : Nat) (L : List Task) (i : Nat) (t : Task)
    (h : L[i]? = some t) :
    (duplicatesInfo k L)[i]? = some (dupEntry (k + i) t) := by
  induction L generalizing k i with
  | nil => simp at h
  | cons a l ih =>
    cases i with
    | zero =>
      simp only [List.getElem?_cons_zero, Option.some.injEq] at h
      subst h
      simp [duplicatesInfo]
    | succ n =>
      simp only [List.getElem?_cons_succ] at h
      have hrec := ih (k + 1) n h
      have harith : k + 1 + n = k + (n + 1) := by omega
      rw [harith] at hrec
      simpa [duplicatesInfo] using hrec

/-! Claim theorems. -/

/-- C10: for every non-empty `user_id`, `delete_task` with neither a
(truthy) `task_title` nor a (truthy) `task_id` raises no exception,
deletes nothing (the store is returned unchanged), and returns
`status = "error"` with the message asking for a title or ID. -/
theorem delete_task_requires_title_or_id (store : List Task) (user_id : String)
    (task_title task_id : Option String) (hu : user_id ≠ "")
    (ht : optTruthy task_title = none) (hi : optTruthy task_id = none) :
    delete_task store user_id task_title task_id =
      .ok (store,
        { status := "error",
          message := "Please provide either a task title or task ID." }) := by
  simp [delete_task, hu, ht, hi]

theorem delete_task_requires_title_or_id_witness :
    ("u1" : String) ≠ "" ∧
    delete_task [] "u1" none none =
      .ok ([],
        { status := "error",
          message := "Please provide either a task title or task ID." }) :=
  ⟨by decide, delete_task_requires_title_or_id [] "u1" none none (by decide) rfl rfl⟩

/-- C5 counterexample: `add_task` with an empty owner throws
(`raise ValueError("user_id is required")`, line 17) — it does not
fail softly with a `status: error` payload, refuting the claim at this
concrete input. -/
theorem add_task_missing_owner_raises_cex :
    add_task [] "tid-0002" d1 "" "Buy milk" none "medium" none none =
      .error (.valueError "user_id is required") := rfl

/-- C5 amended: for every call to `add_task` with an empty (missing)
owner, the operation raises `ValueError "user_id is required"` instead
of returning a `status: error` result; the exception is caught only
upstream, by the `except` handler of the dispatch loop. -/
theorem add_task_missing_owner_raises (store : List Task) (newId : String) (now : DT)
    (title : String) (description : Option String) (priority : String)
    (due_date tags : Option String) :
    add_task store newId now "" title description priority due_date tags =
      .error (.valueError "user_id is required") := rfl

/-- C6 counterexample: with 3 tasks of which 2 are completed,
`get_analytics` returns `productivity_score = 66`
(`int(2/3*100)` truncates), while the claimed `round(2/3*100)` is 67. -/
theorem get_analytics_not_round_cex :
    (get_analytics analyticsStore "u6").analytics =
      { tasks_total := 3, tasks_completed := 2, tasks_pending := 1,
        productivity_score := 66 } ∧
    specRound100 2 3 = 67 ∧ (66 : Nat) ≠ 67 := by decide

/-- C6 amended: `productivity_score` is the truncation
`int(completed/total*100)` computed over IEEE doubles — embedded
faithfully by `floatPercentTrunc` (correctly rounded exact-ratio
division, then a correctly rounded product with 100, then truncation
toward zero) — not the nearest-integer rounding the claim states: at
2 completed of 3 the score is 66 where `round` gives 67, and the float
rounding can even land below the exact percentage: at 29 of 100 the
score is 28 while both `round` and the exact floor give 29.  With
zero tasks the score is 0 (no division error). -/
theorem get_analytics_score_truncates (store : List Task) (user_id : String) :
    ((get_analytics store user_id).analytics.tasks_total = 0 →
      (get_analytics store user_id).analytics.productivity_score = 0) ∧
    (0 < (get_analytics store user_id).analytics.tasks_total →
      (get_analytics store user_id).analytics.productivity_score =
        floatPercentTrunc (get_analytics store user_id).analytics.tasks_completed
          (get_analytics store user_id).analytics.tasks_total) ∧
    (floatPercentTrunc 2 3 = 66 ∧ specRound100 2 3 = 67) ∧
    (floatPercentTrunc 29 100 = 28 ∧ specRound100 29 100 = 29) := by
  refine ⟨?_, ?_, by decide, by decide⟩
  · intro h
    simp only [get_analytics] at h ⊢
    simp [h]
  · intro h
    simp only [get_analytics] at h ⊢
    rw [if_pos h]

theorem get_analytics_score_truncates_witness :
    ((get_analytics [] "u0").analytics.tasks_total = 0 ∧
      (get_analytics [] "u0").analytics.productivity_score = 0) ∧
    (0 < (get_analytics analyticsStore "u6").analytics.tasks_total ∧
      (get_analytics analyticsStore "u6").analytics.productivity_score =
        floatPercentTrunc (get_analytics analyticsStore "u6").analytics.tasks_completed
          (get_analytics analyticsStore "u6").analytics.tasks_total) :=
  ⟨⟨by decide, (get_analytics_score_truncates [] "u0").1 (by decide)⟩,
   ⟨by decide, ((get_analytics_score_truncates analyticsStore "u6").2).1 (by decide)⟩⟩

/-- C7 counterexample: `complete_all_tasks` on a pending task created
and last updated at `d1` leaves `updated_at = d1` — it is the stored
value, not the time of the operation (the code never reads a clock),
refuting the "updated_at refreshed" part of the claim. -/
theorem complete_all_tasks_stale_updated_at_cex :
    ((complete_all_tasks [mkTask "t1" "u7" "Report" "low" "pending" d1] "u7").1.map
        fun t => (t.status, t.updated_at)) = [("completed", d1)] ∧ d1 ≠ d2 := by
  decide

/-- C7 amended: after `complete_all_tasks(owner)`, every task of the
owner (at its original position) has `status = "completed"` while all
its other fields — in particular `updated_at` — keep their previous
values; the timestamp is not refreshed. -/
theorem complete_all_tasks_spec (store : List Task) (user_id : String)
    (i : Nat) (t : Task) (h : store[i]? = some t) (hmine : t.user_id = user_id) :
    ∃ t2, (complete_all_tasks store user_id).1[i]? = some t2 ∧
      t2.status = "completed" ∧ t2.updated_at = t.updated_at ∧
      t2.created_at = t.created_at ∧ t2.id = t.id ∧ t2.user_id = t.user_id ∧
      t2.title = t.title ∧ t2.description = t.description ∧
      t2.priority = t.priority ∧ t2.due_date = t.due_date ∧ t2.tags = t.tags := by
  refine ⟨{ t with status := "completed" }, ?_,
    rfl, rfl, rfl, rfl, rfl, rfl, rfl, rfl, rfl, rfl⟩
  simp [complete_all_tasks, List.getElem?_map, h, hmine]

/-- C3: when two or more tasks of the owner match `current_title`,
`update_task_by_title` mutates nothing — the store is returned exactly
as given, so every field of every task, `updated_at` included, is
unchanged — and returns `status = "error"` with a message naming the
count of matching tasks. -/
theorem update_task_ambiguous_mutates_nothing (store : List Task)
    (user_id current_title : String)
    (new_title description priority status due_date tags : Option String) (now : DT)
    (hu : user_id ≠ "") (hc : current_title ≠ "")
    (h2 : 2 ≤ (store.filter (matchesTitle user_id current_title)).length) :
    update_task_by_title store user_id current_title
        new_title description priority status due_date tags now =
      (store,
       { status := "error",
         message := "Found " ++
           toString (store.filter (matchesTitle user_id current_title)).length ++
           " tasks named \x27" ++ current_title ++
           "\x27. Please rename them via ID first or delete the duplicates." }) := by
  obtain ⟨a, rest, hfe⟩ :
      ∃ a rest, store.filter (matchesTitle user_id current_title) = a :: rest := by
    cases hf : store.filter (matchesTitle user_id current_title) with
    | nil => rw [hf] at h2; simp at h2
    | cons a rest => exact ⟨a, rest, rfl⟩
  rw [hfe] at h2
  simp only [List.length_cons] at h2
  unfold update_task_by_title
  rw [if_neg (not_or.mpr ⟨hu, hc⟩), hfe]
  simp only [List.length_cons]
  rw [if_pos (by omega)]

theorem update_task_ambiguous_mutates_nothing_witness :
    ("u2" : String) ≠ "" ∧ ("Buy milk" : String) ≠ "" ∧
    2 ≤ (dupStore.filter (matchesTitle "u2" "Buy milk")).length ∧
    update_task_by_title dupStore "u2" "Buy milk" none none none none none none d3 =
      (dupStore,
       { status := "error",
         message := "Found " ++ toString (dupStore.filter (matchesTitle "u2" "Buy milk")).length ++
           " tasks named \x27Buy milk\x27. Please rename them via ID first or delete the duplicates." }) :=
  ⟨by decide, by decide, by decide,
    update_task_ambiguous_mutates_nothing dupStore "u2" "Buy milk"
      none none none none none none d3 (by decide) (by decide) (by decide)⟩

/-- C9: when `update_task_by_title` resolves to a unique matching
task, the store changes only by replacing that task with its patched
version, and every patch field supplied as `None` or as an empty
string is ignored — the task field keeps its previous value (a truthy
but unparseable `due_date` is also dropped); `id`, `user_id` and
`created_at` are never written at all, so no field can be cleared
through this operation. -/
theorem update_task_unique_ignores_falsy_fields (store : List Task)
    (user_id current_title : String)
    (new_title description priority status due_date tags : Option String)
    (now : DT) (task : Task)
    (hu : user_id ≠ "") (hc : current_title ≠ "")
    (hf : store.filter (matchesTitle user_id current_title) = [task]) :
    ∃ updated,
      update_task_by_title store user_id current_title
          new_title description priority status due_date tags now =
        (replaceFirst (matchesTitle user_id current_title) updated store,
         { status := "success",
           message := "Task \x27" ++ current_title ++ "\x27 updated.",
           task_title := some updated.title }) ∧
      (optTruthy new_title = none → updated.title = task.title) ∧
      (optTruthy description = none → updated.description = task.description) ∧
      (optTruthy priority = none → updated.priority = task.priority) ∧
      (optTruthy status = none → updated.status = task.status) ∧
      (optTruthy tags = none → updated.tags = task.tags) ∧
      (optTruthy due_date = none → updated.due_date = task.due_date) ∧
      (∀ s, optTruthy due_date = some s → parseDate s = none →
        updated.due_date = task.due_date) ∧
      updated.id = task.id ∧ updated.user_id = task.user_id ∧
      updated.created_at = task.created_at := by
  refine ⟨applyPatch new_title description priority status due_date tags now task,
    ?_, ?_, ?_, ?_, ?_, ?_, ?_, ?_, rfl, rfl, rfl⟩
  · unfold update_task_by_title
    rw [if_neg (not_or.mpr ⟨hu, hc⟩), hf]
    rfl
  · intro h; simp [applyPatch, h]
  · intro h; simp [applyPatch, h]
  · intro h; simp [applyPatch, h]
  · intro h; simp [applyPatch, h]
  · intro h; simp [applyPatch, h]
  · intro h; simp [applyPatch, h]
  · intro s hs hp; simp [applyPatch, hs, hp]

theorem update_task_unique_ignores_falsy_fields_witness :
    ("u9" : String) ≠ "" ∧ ("Report" : String) ≠ "" ∧
    [richTask].filter (matchesTitle "u9" "Report") = [richTask] ∧
    ∃ updated,
      update_task_by_title [richTask] "u9" "Report"
          none (some "") none none (some "9999-99-99") none d2 =
        (replaceFirst (matchesTitle "u9" "Report") updated [richTask],
         { status := "success",
           message := "Task \x27Report\x27 updated.",
           task_title := some updated.title }) ∧
      (optTruthy (none : Option String) = none → updated.title = richTask.title) ∧
      (optTruthy (some "") = none → updated.description = richTask.description) ∧
      (optTruthy (none : Option String) = none → updated.priority = richTask.priority) ∧
      (optTruthy (none : Option String) = none → updated.status = richTask.status) ∧
      (optTruthy (none : Option String) = none → updated.tags = richTask.tags) ∧
      (optTruthy (some "9999-99-99") = none → updated.due_date = richTask.due_date) ∧
      (∀ s, optTruthy (some "9999-99-99") = some s → parseDate s = none →
        updated.due_date = richTask.due_date) ∧
      updated.id = richTask.id ∧ updated.user_id = richTask.user_id ∧
      updated.created_at = richTask.created_at :=
  ⟨by decide, by decide, by decide,
    update_task_unique_ignores_falsy_fields [richTask] "u9" "Report"
      none (some "") none none (some "9999-99-99") none d2 richTask
      (by decide) (by decide) (by decide)⟩

/-- C2: for an owner with two or more tasks titled `task_title`,
`delete_task` called with only that title deletes nothing (the store
is returned unchanged) and returns `status = "error"` with
`requires_clarification = true`; the message is built from the
candidate list sorted by ascending creation time, which is a
permutation of the matching tasks, and whose `i`-th rendered entry is
1-indexed and shows the index, upper-cased priority, creation
timestamp to the second, optional due date, and id of the `i`-th
sorted candidate. -/
theorem delete_task_duplicates_clarify (store : List Task) (user_id title : String)
    (hu : user_id ≠ "") (ht : title ≠ "")
    (h2 : 2 ≤ (store.filter fun t => t.user_id == user_id && t.title == title).length) :
    ∃ sorted,
      sorted = sortByCreatedAsc (store.filter fun t => t.user_id == user_id && t.title == title) ∧
      delete_task store user_id (some title) none =
        .ok (store,
          { status := "error",
            message := clarificationMessage title sorted,
            requires_clarification := true }) ∧
      sorted.Perm (store.filter fun t => t.user_id == user_id && t.title == title) ∧
      List.Sorted createdLe sorted ∧
      ∀ i t, sorted[i]? = some t →
        (duplicatesInfo 1 sorted)[i]? =
          some (toString (i + 1) ++ ". [" ++ strUpper t.priority ++ "] Created: " ++
            strftimeSec t.created_at ++ dueSuffix t.due_date ++ " (ID: " ++ t.id ++ ")") := by
  refine ⟨_, rfl, ?_, List.perm_insertionSort _ _, List.sorted_insertionSort _ _, ?_⟩
  · have hlen : 2 ≤ (sortByCreatedAsc
        (store.filter fun t => t.user_id == user_id && t.title == title)).length := by
      rw [sortByCreatedAsc, List.length_insertionSort]
      exact h2
    obtain ⟨a, b, l, hS⟩ : ∃ a b l,
        sortByCreatedAsc (store.filter fun t => t.user_id == user_id && t.title == title) =
          a :: b :: l := by
      match hS : sortByCreatedAsc
          (store.filter fun t => t.user_id == user_id && t.title == title) with
      | [] => rw [hS] at hlen; simp at hlen
      | [x] => rw [hS] at hlen; simp at hlen
      | a :: b :: l => exact ⟨a, b, l, rfl⟩
    unfold delete_task
    rw [if_neg hu]
    simp only [optTruthy, if_neg ht]
    simp only [delete_by_title]
    rw [hS]
  · intro i t h
    have hget := duplicatesInfo_getElem? 1 _ i t h
    have harith : 1 + i = i + 1 := by omega
    rw [harith] at hget
    rw [hget]
    rfl

theorem delete_task_duplicates_clarify_witness :
    ("u2" : String) ≠ "" ∧ ("Buy milk" : String) ≠ "" ∧
    2 ≤ (dupStore.filter fun t => t.user_id == "u2" && t.title == "Buy milk").length ∧
    ∃ sorted,
      sorted = sortByCreatedAsc (dupStore.filter fun t => t.user_id == "u2" && t.title == "Buy milk") ∧
      delete_task dupStore "u2" (some "Buy milk") none =
        .ok (dupStore,
          { status := "error",
            message := clarificationMessage "Buy milk" sorted,
            requires_clarification := true }) ∧
      sorted.Perm (dupStore.filter fun t => t.user_id == "u2" && t.title == "Buy milk") ∧
      List.Sorted createdLe sorted ∧
      ∀ i t, sorted[i]? = some t →
        (duplicatesInfo 1 sorted)[i]? =
          some (toString (i + 1) ++ ". [" ++ strUpper t.priority ++ "] Created: " ++
            strftimeSec t.created_at ++ dueSuffix t.due_date ++ " (ID: " ++ t.id ++ ")") :=
  ⟨by decide, by decide, by decide,
    delete_task_duplicates_clarify dupStore "u2" "Buy milk"
      (by decide) (by decide) (by decide)⟩

/-- C1: for every valid chat request and every upstream outcome —
success without tools, success with tools, or any exception talking to
the external model — the endpoint does not abort: it returns `ok` and
persists exactly two new messages, the user message of the turn
followed by its assistant message (the user message is written before the
`try` block so it survives upstream failure); and on a failure the
persisted assistant content is the synthesized fallback
`"I encountered an error processing your request: …"` and the response
reports `tool_calls_executed = false`. -/
theorem chat_turn_persists_exactly_two (st : ChatState) (message user_id uid : String)
    (convReq : Option (Option Nat)) (now : DT) (outcome : UpstreamOutcome)
    (hu : user_id ≠ "") :
    ∃ st2 resp ac,
      chat_endpoint st message user_id (some uid) convReq now outcome = .ok (st2, resp) ∧
      st2.msgs = st.msgs ++
        [{ conversation_id := resp.conversation_id, role := "user", content := message,
           timestamp := now, tool_call_id := none },
         { conversation_id := resp.conversation_id, role := "assistant", content := ac,
           timestamp := now, tool_call_id := none }] ∧
      (∀ e, outcome = .failure e →
        ac = "I encountered an error processing your request: " ++ e ∧
        resp.tool_calls_executed = false) := by
  unfold chat_endpoint
  rw [if_neg hu]
  refine ⟨_, _, pyOr (finalRespOf outcome) "Processed.", rfl, ?_, ?_⟩
  · dsimp only
    rw [resolveConv_msgs]
    simp [List.append_assoc]
  · intro e he
    subst he
    refine ⟨?_, rfl⟩
    simp [finalRespOf, pyOr, fallback_ne_empty]

theorem chat_turn_persists_exactly_two_witness :
    ("u1" : String) ≠ "" ∧
    ∃ st2 resp ac,
      chat_endpoint emptyChatState "hi" "u1" (some "u1") none d1 (.failure "boom") =
        .ok (st2, resp) ∧
      st2.msgs = emptyChatState.msgs ++
        [{ conversation_id := resp.conversation_id, role := "user", content := "hi",
           timestamp := d1, tool_call_id := none },
         { conversation_id := resp.conversation_id, role := "assistant", content := ac,
           timestamp := d1, tool_call_id := none }] ∧
      (∀ e, (UpstreamOutcome.failure "boom") = .failure e →
        ac = "I encountered an error processing your request: " ++ e ∧
        resp.tool_calls_executed = false) :=
  ⟨by decide,
    chat_turn_persists_exactly_two emptyChatState "hi" "u1" "u1" none d1
      (.failure "boom") (by decide)⟩

/-- C4 counterexample: the requester `userA` supplies
`conversation_id = 5`, which exists but is owned by `userB`, so it
does not resolve to a conversation owned by the requesting user; the
claim then demands a fresh conversation, but the endpoint reuses
conversation 5 — `convs` and `nextConvId` are unchanged (nothing is
allocated) and both turn messages attach to the foreign
conversation. -/
theorem chat_foreign_conversation_reused_cex :
    chat_endpoint foreignConvState "hello" "userA" (some "userA") (some (some 5)) d2
        (.noTools (some "hi")) =
      .ok ({ convs := foreignConvState.convs, nextConvId := 6,
             msgs := [{ conversation_id := 5, role := "user", content := "hello",
                        timestamp := d2 },
                      { conversation_id := 5, role := "assistant", content := "hi",
                        timestamp := d2 }] },
           { response := "hi", conversation_id := 5, user_id := "userA",
             tool_calls_executed := false, original_message := "hello" }) ∧
    foreignConvState.convs.map Conversation.user_id = ["userB"] ∧
    ("userB" : String) ≠ "userA" := by
  refine ⟨rfl, rfl, by decide⟩

/-- C4 amended: when `conversation_id` is absent, malformed, or refers
to no existing conversation — existence by id is all the endpoint
checks; ownership is never consulted, and an existing conversation
with that id is reused even when owned by another user — a new
conversation owned by the requester is silently allocated (the request
still succeeds) and both turn messages attach to it. -/
theorem chat_unresolved_conversation_allocates_new (st : ChatState)
    (message user_id uid : String) (convReq : Option (Option Nat)) (now : DT)
    (outcome : UpstreamOutcome) (hu : user_id ≠ "")
    (hnores : ∀ k, convReq = some (some k) → ∀ c ∈ st.convs, c.id ≠ k) :
    ∃ st2 resp ttl,
      chat_endpoint st message user_id (some uid) convReq now outcome = .ok (st2, resp) ∧
      resp.conversation_id = st.nextConvId ∧
      st2.convs = st.convs ++
        [{ id := st.nextConvId, user_id := uid, title := ttl,
           created_at := now, updated_at := now }] ∧
      st2.msgs = st.msgs ++
        [{ conversation_id := st.nextConvId, role := "user", content := message,
           timestamp := now, tool_call_id := none },
         { conversation_id := st.nextConvId, role := "assistant",
           content := pyOr (finalRespOf outcome) "Processed.",
           timestamp := now, tool_call_id := none }] := by
  have hres : resolveConv st uid message convReq now =
      ({ st with
          convs := st.convs ++
            [{ id := st.nextConvId, user_id := uid,
               title :=
                 (if (if 30 < strLen message then strTake message 30 ++ "..." else message) = ""
                  then "New Chat"
                  else (if 30 < strLen message then strTake message 30 ++ "..." else message)),
               created_at := now, updated_at := now }],
          nextConvId := st.nextConvId + 1 }, st.nextConvId) := by
    unfold resolveConv
    rcases convReq with _ | _ | k
    · rfl
    · rfl
    · have hany : st.convs.any (fun c => c.id = k) = false := by
        simp only [List.any_eq_false, decide_eq_true_eq]
        exact hnores k rfl
      dsimp only
      rw [hany]
      simp
  unfold chat_endpoint
  rw [if_neg hu]
  dsimp only
  rw [hres]
  refine ⟨_, _, _, rfl, rfl, rfl, ?_⟩
  simp [List.append_assoc]

theorem chat_unresolved_conversation_allocates_new_witness :
    ("u1" : String) ≠ "" ∧
    ∃ st2 resp ttl,
      chat_endpoint emptyChatState "hello there" "u1" (some "u1") (some (some 5)) d1
          (.noTools (some "hi")) = .ok (st2, resp) ∧
      resp.conversation_id = emptyChatState.nextConvId ∧
      st2.convs = emptyChatState.convs ++
        [{ id := emptyChatState.nextConvId, user_id := "u1", title := ttl,
           created_at := d1, updated_at := d1 }] ∧
      st2.msgs = emptyChatState.msgs ++
        [{ conversation_id := emptyChatState.nextConvId, role := "user",
           content := "hello there", timestamp := d1, tool_call_id := none },
         { conversation_id := emptyChatState.nextConvId, role := "assistant",
           content := pyOr (finalRespOf (.noTools (some "hi"))) "Processed.",
           timestamp := d1, tool_call_id := none }] :=
  ⟨by decide,
    chat_unresolved_conversation_allocates_new emptyChatState "hello there" "u1" "u1"
      (some (some 5)) d1 (.noTools (some "hi")) (by decide)
      (fun k _ c hc => by simp [emptyChatState] at hc)⟩

/-- C8 counterexample: a task added with `due_date = "2025-03-10"` is
listed by `list_tasks` with `due_date = "2025-03-10T00:00:00"` — the
stored value is a midnight `datetime` and `isoformat()` keeps the time
part — not the claimed `"2025-03-10"`. -/
theorem due_date_round_trip_cex :
    add_task [] "tid-0001" d1 "u8" "Groceries" none "medium" (some "2025-03-10") none =
      .ok (c8Store,
        { status := "success", message := "Task \x27Groceries\x27 added.",
          task_id := "tid-0001", task_title := "Groceries" }) ∧
    (list_tasks c8Store "u8" none).map (fun r => r.tasks.map TaskSummary.due_date) =
      .ok [some "2025-03-10T00:00:00"] ∧
    some ("2025-03-10T00:00:00" : String) ≠ some "2025-03-10" := by
  refine ⟨rfl, rfl, by decide⟩

/-- C8 amended: for a task created via `add_task` with due-date string
`"2025-03-10"`, the summary returned by `list_tasks` for that task
carries `due_date = "2025-03-10T00:00:00"` (the ISO rendering of the
stored midnight datetime), not the bare input date string. -/
theorem due_date_round_trip_isoformat (store : List Task) (newId : String)
    (now : DT) (uid title : String) (hu : uid ≠ "") :
    ∃ store2 r summaries,
      add_task store newId now uid title none "medium" (some "2025-03-10") none =
        .ok (store2, r) ∧
      list_tasks store2 uid none = .ok { status := "success", tasks := summaries } ∧
      ∃ s ∈ summaries, s.id = newId ∧ s.due_date = some "2025-03-10T00:00:00" := by
  refine ⟨store ++ [dueTask newId uid title now],
    { status := "success", message := "Task \x27" ++ title ++ "\x27 added.",
      task_id := newId, task_title := title },
    (sortByCreatedDesc ((store ++ [dueTask newId uid title now]).filter
      fun t => t.user_id == uid)).map summarize, ?_, ?_, ?_⟩
  · unfold add_task
    rw [if_neg hu]
    rfl
  · unfold list_tasks
    rw [if_neg hu]
    rfl
  · have hmem :
        dueTask newId uid title now ∈
          sortByCreatedDesc ((store ++ [dueTask newId uid title now]).filter
            fun t => t.user_id == uid) := by
      rw [sortByCreatedDesc, List.mem_insertionSort, List.mem_filter]
      refine ⟨List.mem_append_right _ (List.mem_singleton_self _), ?_⟩
      simp [dueTask]
    exact ⟨_, List.mem_map_of_mem summarize hmem, rfl, rfl⟩

theorem due_date_round_trip_isoformat_witness :
    ("u8" : String) ≠ "" ∧
    ∃ store2 r summaries,
      add_task [] "tid-0001" d1 "u8" "Groceries" none "medium" (some "2025-03-10") none =
        .ok (store2, r) ∧
      list_tasks store2 "u8" none = .ok { status := "success", tasks := summaries } ∧
      ∃ s ∈ summaries, s.id = "tid-0001" ∧ s.due_date = some "2025-03-10T00:00:00" :=
  ⟨by decide, due_date_round_trip_isoformat [] "tid-0001" d1 "u8" "Groceries" (by decide)⟩

theorem complete_all_tasks_spec_witness :
    [mkTask "t1" "u7" "Report" "low" "pending" d1][0]? =
        some (mkTask "t1" "u7" "Report" "low" "pending" d1) ∧
    ∃ t2, (complete_all_tasks [mkTask "t1" "u7" "Report" "low" "pending" d1] "u7").1[0]? =
        some t2 ∧
      t2.status = "completed" ∧
      t2.updated_at = (mkTask "t1" "u7" "Report" "low" "pending" d1).updated_at ∧
      t2.created_at = (mkTask "t1" "u7" "Report" "low" "pending" d1).created_at ∧
      t2.id = (mkTask "t1" "u7" "Report" "low" "pending" d1).id ∧
      t2.user_id = (mkTask "t1" "u7" "Report" "low" "pending" d1).user_id ∧
      t2.title = (mkTask "t1" "u7" "Report" "low" "pending" d1).title ∧
      t2.description = (mkTask "t1" "u7" "Report" "low" "pending" d1).description ∧
      t2.priority = (mkTask "t1" "u7" "Report" "low" "pending" d1).priority ∧
      t2.due_date = (mkTask "t1" "u7" "Report" "low" "pending" d1).due_date ∧
      t2.tags = (mkTask "t1" "u7" "Report" "low" "pending" d1).tags :=
  ⟨rfl, complete_all_tasks_spec [mkTask "t1" "u7" "Report" "low" "pending" d1]
    "u7" 0 (mkTask "t1" "u7" "Report" "low" "pending" d1) rfl rfl⟩

end App
